import Mathlib

/-!
Shallow embedding of the NID-Egypt service core:
the Egyptian national-ID validator (`apps/egypt_national_id/schemas.py`),
the generic data-access layer (`bases/base_orm.py`), the operation
lifecycle framework (`bases/business_logic.py`) and the request-tracking /
rate-limiting middlewares (`core/middlewares.py`).

Machine values are modelled with `Nat`/`Int`; Python dictionaries are
association lists; fallible Python code (raised exceptions) is modelled
with `Except String`.
-/

deriving instance DecidableEq for Except

/-! ## Egyptian national-ID validator (`apps/egypt_national_id/schemas.py`) -/

/-- A calendar date, mirroring Python `datetime.date`. -/
structure PyDate where
  year : Nat
  month : Nat
  day : Nat
deriving DecidableEq, Repr

/-- Gregorian leap-year rule used by `datetime.date`. -/
def isLeapYear (y : Nat) : Bool :=
  y % 4 == 0 && (y % 100 != 0 || y % 400 == 0)

/-- Number of days in a month, as `datetime.date` checks it. -/
def daysInMonth (y m : Nat) : Nat :=
  if m == 2 then (if isLeapYear y then 29 else 28)
  else if m == 4 || m == 6 || m == 9 || m == 11 then 30
  else 31

/-- The `date(year, month, day)` constructor: raises `ValueError` when the
components are out of range (Python bounds `MINYEAR = 1`, `MAXYEAR = 9999`). -/
def mkPyDate (y m d : Nat) : Except String PyDate :=
  if 1 ≤ y && y ≤ 9999 && 1 ≤ m && m ≤ 12 && 1 ≤ d && d ≤ daysInMonth y m then
    Except.ok ⟨y, m, d⟩
  else
    Except.error "day is out of range for month"

/-- Lexicographic comparison of `(month, day)` pairs, as the Python tuple
comparison `(today.month, today.day) < (birth.month, birth.day)`. -/
def monthDayLt (a b : Nat × Nat) : Bool :=
  a.1 < b.1 || (a.1 == b.1 && a.2 < b.2)

/-- Lexicographic strict order on dates, as Python compares `date` values. -/
def pyDateLt (a b : PyDate) : Bool :=
  a.year < b.year || (a.year == b.year && monthDayLt (a.month, a.day) (b.month, b.day))

/-- `Gender` enum of the schema module. -/
inductive Gender where
  | male
  | female
deriving DecidableEq, Repr

/-- `DateOfBirth` response model: full date, components, and computed age. -/
structure DateOfBirth where
  full_date : PyDate
  year : Nat
  month : Nat
  day : Nat
  age : Int
deriving DecidableEq, Repr

/-- `Location` response model: two-digit governorate code and its name.
The two-character code substring is represented by its numeric value,
which is faithful because every key of `GOVERNORATE_NAMES` is a
two-digit string. -/
structure Location where
  governorate_code : Nat
  governorate_name : String
deriving DecidableEq, Repr

/-- The `GOVERNORATE_NAMES` mapping, keys read as two-digit numbers. -/
def GOVERNORATE_NAMES : List (Nat × String) :=
  [(1, "Cairo"), (2, "Alexandria"), (3, "Port Said"), (4, "Suez"),
   (11, "Damietta"), (12, "Dakahlia"), (13, "Sharqia"), (14, "Qalyubia"),
   (15, "Kafr El-Sheikh"), (16, "Gharbia"), (17, "Menoufia"), (18, "Beheira"),
   (19, "Ismailia"), (21, "Giza"), (22, "Beni Suef"), (23, "Fayoum"),
   (24, "Minya"), (25, "Asyut"), (26, "Sohag"), (27, "Qena"),
   (28, "Aswan"), (29, "Luxor"), (31, "Red Sea"), (32, "New Valley"),
   (33, "Matrouh"), (34, "North Sinai"), (35, "South Sinai"), (88, "Outside Egypt")]

/-- A national-ID string is represented as its list of decimal digits
(the request model guarantees exactly 14 digit characters). -/
abbrev NIDDigits := List Nat

/-- Digit at position `i` of the identifier (`national_id[i]`). -/
def dig (id : NIDDigits) (i : Nat) : Nat := id.getD i 0

/-- `extract_century`: 1900 for leading digit 2, 2000 for 3, `ValueError`
otherwise. -/
def extract_century (id : NIDDigits) : Except String Nat :=
  let first_digit := dig id 0
  if first_digit == 2 then Except.ok 1900
  else if first_digit == 3 then Except.ok 2000
  else Except.error ("Invalid century indicator: " ++ toString first_digit)

/-- `extract_date_of_birth`: builds the date from digits 1..6 on top of the
century; a `ValueError` from the century extraction or the date constructor
is re-raised with an "Invalid date of birth" prefix. Takes the current date
(`date.today()`) as an explicit parameter. -/
def extract_date_of_birth (today : PyDate) (id : NIDDigits) : Except String DateOfBirth :=
  match extract_century id with
  | Except.error e => Except.error ("Invalid date of birth: " ++ e)
  | Except.ok century =>
    let year := century + (10 * dig id 1 + dig id 2)
    let month := 10 * dig id 3 + dig id 4
    let day := 10 * dig id 5 + dig id 6
    match mkPyDate year month day with
    | Except.error e => Except.error ("Invalid date of birth: " ++ e)
    | Except.ok birth_date =>
      let age : Int := (today.year : Int) - (birth_date.year : Int) -
        (if monthDayLt (today.month, today.day) (birth_date.month, birth_date.day) then 1 else 0)
      Except.ok ⟨birth_date, year, month, day, age⟩

/-- `extract_governorate`: looks digits 7..8 up in `GOVERNORATE_NAMES`,
raising `ValueError` for an unknown code. -/
def extract_governorate (id : NIDDigits) : Except String Location :=
  let gov_code := 10 * dig id 7 + dig id 8
  match GOVERNORATE_NAMES.find? (fun kv => kv.1 == gov_code) with
  | some kv => Except.ok ⟨gov_code, kv.2⟩
  | Option.none => Except.error ("Invalid governorate code: " ++ toString gov_code)

/-- The sequence number `int(national_id[9:13])`. -/
def sequenceOf (id : NIDDigits) : Nat :=
  1000 * dig id 9 + 100 * dig id 10 + 10 * dig id 11 + dig id 12

/-- `extract_gender`: odd sequence number means male. On an all-digit input
the `int` conversion cannot raise, so this is total. -/
def extract_gender (id : NIDDigits) : Gender :=
  if sequenceOf id % 2 == 1 then Gender.male else Gender.female

/-- `validate_checksum`: an explicit placeholder that always succeeds. -/
def validate_checksum (_id : NIDDigits) : Bool := true

/-- `NationalIDData` response model. -/
structure NationalIDData where
  national_id : NIDDigits
  is_valid : Bool
  date_of_birth : Option DateOfBirth
  gender : Option Gender
  location : Option Location
  sequence_number : Option Nat
  century : Option Nat
  errors : List String
deriving DecidableEq, Repr

/-- `EgyptianNationalIDValidator.validate_and_extract`: runs every
sub-extraction, folding each failure into the `errors` list in program
order (date of birth with the future-date and age checks, then
governorate, then gender, then sequence/century, then checksum);
`is_valid` is set exactly when no error was collected. The current date is
an explicit parameter. -/
def validate_and_extract (today : PyDate) (id : NIDDigits) : NationalIDData :=
  let dobStep : Option DateOfBirth × List String :=
    match extract_date_of_birth today id with
    | Except.ok dob =>
      let futureErrs := if pyDateLt today dob.full_date then ["Birth date cannot be in the future"] else []
      let ageErrs := if dob.age > 150 then ["Age exceeds reasonable limit"] else []
      (some dob, futureErrs ++ ageErrs)
    | Except.error e => (Option.none, [e])
  let govStep : Option Location × List String :=
    match extract_governorate id with
    | Except.ok loc => (some loc, [])
    | Except.error e => (Option.none, [e])
  let centuryStep : Option Nat × List String :=
    match extract_century id with
    | Except.ok c => (some c, [])
    | Except.error e => (Option.none, ["Failed to extract metadata: " ++ e])
  let checksumErrs := if validate_checksum id then [] else ["Invalid checksum"]
  let errors := dobStep.2 ++ govStep.2 ++ centuryStep.2 ++ checksumErrs
  { national_id := id
    is_valid := errors.isEmpty
    date_of_birth := dobStep.1
    gender := some (extract_gender id)
    location := govStep.1
    sequence_number := some (sequenceOf id)
    century := centuryStep.1
    errors := errors }

example : extract_century [2, 9, 5, 0, 1, 0, 1, 1, 2, 3, 4, 5, 6, 7] = Except.ok 1900 := by decide

example :
    (validate_and_extract ⟨2025, 1, 1⟩ [2, 9, 5, 0, 1, 0, 1, 0, 1, 1, 2, 3, 4, 7]).is_valid = true := by
  decide

/-! ## Data model for the ORM layer (`bases/base_orm.py`)

Column values are `Val`; a persisted record is an attribute map; a table is
a list of records in insertion order. -/

/-- A column value: SQL NULL / Python `None`, an integer, or a string. -/
inductive Val where
  | none
  | int (n : Int)
  | str (s : String)
deriving DecidableEq, Repr

/-- A record instance: an attribute map in declaration order. -/
abbrev Rec := List (String × Val)

/-- A table: records in insertion order. -/
abbrev Db := List Rec

/-- `getattr(record, a)`; a missing attribute reads as `None`. -/
def getAttr (r : Rec) (a : String) : Val :=
  ((r.find? (fun kv => kv.1 == a)).map Prod.snd).getD Val.none

/-- Metadata of one mapped column, as SQLAlchemy `inspect` exposes it. -/
structure ColumnMeta where
  name : String
  unique : Bool
  primary_key : Bool
deriving DecidableEq, Repr

/-- Metadata of one relationship: the single local column (name and whether
it is the primary key), the single remote-side column name, and the name of
the related table (`rel.mapper.entity`). -/
structure RelMeta where
  localName : String
  localIsPk : Bool
  remoteName : String
  targetTable : String
deriving DecidableEq, Repr

/-- Metadata of a mapped model: table name, columns, relationships, and the
set of attribute names visible to `hasattr(model, _)` (columns plus
relationship attributes). -/
structure ModelMeta where
  table : String
  columns : List ColumnMeta
  relationships : List RelMeta
  attrs : List String
deriving DecidableEq, Repr

/-- A key of a Python dictionary. `model_dump()` produces string keys; the
code of `validate_unique_fields` also tests membership of a Column object,
which is a distinct kind of key and can never equal a string key. -/
inductive PyKey where
  | str (s : String)
  | column (c : ColumnMeta)
deriving DecidableEq, Repr

/-- A Python dictionary with arbitrary keys. -/
abbrev PyDict := List (PyKey × Val)

/-- `data.model_dump()`: the payload as a dictionary with string keys. -/
def model_dump (p : List (String × Val)) : PyDict :=
  p.map (fun kv => (PyKey.str kv.1, kv.2))

/-- `d.get(k)` for a string key `k`; missing keys read as `None`. -/
def dictGet (d : PyDict) (k : String) : Val :=
  ((d.find? (fun kv => kv.1 == PyKey.str k)).map Prod.snd).getD Val.none

/-- `k in d`: dictionary key membership. -/
def dictHasKey (d : PyDict) (k : PyKey) : Bool :=
  d.any (fun kv => kv.1 == k)

/-- The process-wide store: one table per name, as reachable through the
session. -/
abbrev Store := List (String × Db)

/-- The rows of a named table (an unknown name reads as an empty table). -/
def tableOf (s : Store) (t : String) : Db :=
  ((s.find? (fun kv => kv.1 == t)).map Prod.snd).getD []

/-! ## `BaseORM` operations -/

/-- `session.get(model, pk)` with a scalar key: the first record whose
`id` equals the key. -/
def sessionGetById (db : Db) (v : Val) : Option Rec :=
  db.find? (fun r => getAttr r "id" == v)

/-- `BaseORM.get`: point lookup by primary key. -/
def ormGet (db : Db) (pk : Val) : Option Rec := sessionGetById db pk

/-- The positional first argument of `BaseORM.delete`: either a scalar
primary-key value or (as `DeleteOperation._delete` passes it) a resolved
ORM instance. -/
inductive PkArg where
  | val (v : Val)
  | inst (r : Rec)
deriving DecidableEq, Repr

/-- Python truthiness of a column value (`None`, `0` and `""` are falsy). -/
def valFalsy : Val → Bool
  | Val.none => true
  | Val.int n => n == 0
  | Val.str s => s == ""

/-- Python truthiness of the optional `pk` argument (`if not pk`). An ORM
instance is always truthy. -/
def pkArgFalsy : Option PkArg → Bool
  | Option.none => true
  | some (PkArg.val v) => valFalsy v
  | some (PkArg.inst _) => false

/-- `session.get(model, ident)` over either argument shape: a scalar key is
looked up by `id`; an ORM instance is not a valid scalar identity and the
lookup errors. -/
def sessionGetArg (db : Db) : PkArg → Except String (Option Rec)
  | PkArg.val v => Except.ok (sessionGetById db v)
  | PkArg.inst _ => Except.error "Incorrect number of values in identifier to formulate primary key"

/-- `session.delete(obj)`: deleting `None` raises
(`UnmappedInstanceError`); deleting a resolved instance removes its first
occurrence from the table. -/
def sessionDelete (db : Db) : Option Rec → Except String Db
  | Option.none => Except.error "UnmappedInstanceError: None is not mapped"
  | some r => Except.ok (db.erase r)

/-- `BaseORM.delete(pk, model)`: with an explicit `model` instance it is
deleted directly; otherwise a falsy `pk` raises `KeyError`, and a truthy
`pk` is resolved through `session.get` and the result — possibly `None` —
is handed to `session.delete`. On success the method returns `True`. -/
def ormDelete (db : Db) (pk : Option PkArg) (modelArg : Option Rec) : Except String (Db × Bool) :=
  match modelArg with
  | some m =>
    match sessionDelete db (some m) with
    | Except.error e => Except.error e
    | Except.ok db2 => Except.ok (db2, true)
  | Option.none =>
    if pkArgFalsy pk then
      Except.error "KeyError: A primary key or SQLAlchemy instance must be provided."
    else
      match pk with
      | some a =>
        match sessionGetArg db a with
        | Except.error e => Except.error e
        | Except.ok m =>
          match sessionDelete db m with
          | Except.error e => Except.error e
          | Except.ok db2 => Except.ok (db2, true)
      | Option.none =>
        Except.error "KeyError: A primary key or SQLAlchemy instance must be provided."

/-- `model(**fields)` plus `session.add/commit/refresh` in `BaseORM.create`:
the store populates the integer primary key when the payload does not set
it; the new row is appended. Returns the updated table and the persisted
instance. -/
def ormCreate (db : Db) (fields : List (String × Val)) : Db × Rec :=
  let inst : Rec :=
    if fields.any (fun kv => kv.1 == "id") then fields
    else ("id", Val.int (Int.ofNat db.length + 1)) :: fields
  (db ++ [inst], inst)

/-- Total comparison on column values used to model the store's ordering
(NULLs first, then integers, then strings). -/
def valLe (a b : Val) : Bool :=
  match a, b with
  | Val.none, _ => true
  | Val.int _, Val.none => false
  | Val.int m, Val.int n => decide (m ≤ n)
  | Val.int _, Val.str _ => true
  | Val.str _, Val.none => false
  | Val.str _, Val.int _ => false
  | Val.str s, Val.str t => compare s t != Ordering.gt

/-- Insertion into a sorted table (helper for the order-by model). -/
def insertSortedBy (le : Rec → Rec → Bool) (x : Rec) : Db → Db
  | [] => [x]
  | y :: ys => if le x y then x :: y :: ys else y :: insertSortedBy le x ys

/-- Stable sort of a table by a comparison (helper for the order-by model). -/
def sortRecsBy (le : Rec → Rec → Bool) : Db → Db
  | [] => []
  | x :: xs => insertSortedBy le x (sortRecsBy le xs)

/-- `BaseORM._apply_ordering`: no `order_by` leaves the query unchanged; a
leading "-" means descending; an unknown column name is ignored. -/
def applyOrdering (model : ModelMeta) (order_by : Option String) (db : Db) : Db :=
  match order_by with
  | Option.none => db
  | some s =>
    if s.startsWith "-" then
      let column_name := s.drop 1
      if model.attrs.contains column_name then
        sortRecsBy (fun a b => valLe (getAttr b column_name) (getAttr a column_name)) db
      else db
    else
      if model.attrs.contains s then
        sortRecsBy (fun a b => valLe (getAttr a s) (getAttr b s)) db
      else db

/-- `BaseORM.all`: ordered full scan with `offset`/`limit` applied as the
SQL `OFFSET`/`LIMIT` clauses. -/
def ormAll (model : ModelMeta) (db : Db) (offset limit : Nat) (order_by : Option String) : Db :=
  ((applyOrdering model order_by db).drop offset).take limit

/-- The `Query(le=100)` annotation on `limit`: FastAPI request validation
accepts the value only when it is at most 100 (an over-limit value is
rejected with a 422, not clamped). -/
def queryLeHundred (limit : Nat) : Bool := limit ≤ 100

/-- `BaseORM._filter_conditions`: keeps an equality condition for every
field that is an attribute of the model and drops (with a logged warning)
every other field. -/
def filter_conditions (model : ModelMeta) (filtered_fields : List (String × Val)) : List (String × Val) :=
  filtered_fields.filter (fun kv => model.attrs.contains kv.1)

/-- Conjunction of attribute-equality conditions on a record. -/
def matchesConds (conds : List (String × Val)) (r : Rec) : Bool :=
  conds.all (fun kv => getAttr r kv.1 == kv.2)

/-- `BaseORM.filter`: equality-filtered, ordered, paginated scan. -/
def ormFilter (model : ModelMeta) (db : Db) (offset limit : Nat) (order_by : Option String)
    (filters : List (String × Val)) : Db :=
  ((applyOrdering model order_by (db.filter (matchesConds (filter_conditions model filters)))).drop
    offset).take limit

/-- `BaseORM.first`: first record matching the filter conditions. -/
def ormFirst (model : ModelMeta) (db : Db) (filters : List (String × Val)) : Option Rec :=
  (db.filter (matchesConds (filter_conditions model filters))).head?

/-- `BaseORM.validate_relations`: the first violated relationship, if any.
For every relationship whose single local column is not the primary key,
the dumped payload must carry a non-`None` value for that column and the
related table must contain a row whose remote-side column equals it. -/
def relViolation (store : Store) (data_dict : PyDict) (rel : RelMeta) : Option String :=
  if rel.localIsPk then Option.none
  else
    let col_val := dictGet data_dict rel.localName
    if col_val == Val.none then
      some ("Key " ++ rel.localName ++ " not found in provided body.")
    else if (tableOf store rel.targetTable).any (fun r => getAttr r rel.remoteName == col_val) then
      Option.none
    else
      some ("Entity with primary key " ++ rel.targetTable ++ " not found.")

/-- `BaseORM.validate_relations`: raises at the first violated
relationship, in declaration order. -/
def validate_relations (model : ModelMeta) (store : Store) (data : List (String × Val)) :
    Except String Unit :=
  match model.relationships.findSome? (relViolation store (model_dump data)) with
  | some e => Except.error e
  | Option.none => Except.ok ()

/-- The first unique column whose payload value is not `None` and already
occurs in the table (the loop body of `validate_unique_fields`). -/
def firstUniqueViolation (model : ModelMeta) (db : Db) (data_dict : PyDict) : Option ColumnMeta :=
  model.columns.find? (fun column =>
    column.unique && dictGet data_dict column.name != Val.none &&
      db.any (fun r => getAttr r column.name == dictGet data_dict column.name))

/-- `BaseORM.validate_unique_fields`: takes the first primary-key column of
the model and tests `pk_column in data_dict` — membership of the Column
object itself among the dictionary keys, which are the strings produced by
`model_dump()` — raising `ValueError` when it is found; then raises for
the first unique-column collision against the table. -/
def validate_unique_fields (model : ModelMeta) (db : Db) (data : List (String × Val)) :
    Except String Unit :=
  let data_dict := model_dump data
  match (model.columns.filter (fun c => c.primary_key)).head? with
  | Option.none => Except.error "IndexError: model has no primary-key column"
  | some pk_column =>
    if dictHasKey data_dict (PyKey.column pk_column) then
      Except.error ("Cannot create or change primary key " ++ pk_column.name ++ ".")
    else
      match firstUniqueViolation model db data_dict with
      | some column =>
        Except.error ("Unique constraint violation: " ++ column.name ++ " already exists.")
      | Option.none => Except.ok ()

/-! ## Concrete model metadata (`apps/clients/models.py`,
`apps/egypt_national_id/models.py`) -/

/-- The `Client` model: integer pk `id`, unique `name`, nullable
`description`, unique `api_key`, `created_at`, and the `usages`
relationship whose local column is the primary key. -/
def ClientMeta : ModelMeta :=
  { table := "clients"
    columns :=
      [⟨"id", false, true⟩, ⟨"name", true, false⟩, ⟨"description", false, false⟩,
       ⟨"api_key", true, false⟩, ⟨"created_at", false, false⟩]
    relationships := [⟨"id", true, "client_id", "api_usage"⟩]
    attrs := ["id", "name", "description", "api_key", "created_at", "usages"] }

/-- The `ApiUsage` model: integer pk `id`, `client_id` foreign key to
`clients.id`, request metadata columns, and the `client` relationship. -/
def ApiUsageMeta : ModelMeta :=
  { table := "api_usage"
    columns :=
      [⟨"id", false, true⟩, ⟨"client_id", false, false⟩, ⟨"path", false, false⟩,
       ⟨"method", false, false⟩, ⟨"status_code", false, false⟩, ⟨"duration", false, false⟩,
       ⟨"timestamp", false, false⟩]
    relationships := [⟨"client_id", false, "id", "clients"⟩]
    attrs := ["id", "client_id", "path", "method", "status_code", "duration", "timestamp", "client"] }

/-! ## Operation lifecycle framework (`bases/business_logic.py`) -/

/-- `CreateOperation.create_validation`: relation checks then uniqueness
checks against the model's own table. -/
def create_validation (model : ModelMeta) (store : Store) (data : List (String × Val)) :
    Except String Unit :=
  match validate_relations model store data with
  | Except.error e => Except.error e
  | Except.ok _ => validate_unique_fields model (tableOf store model.table) data

/-- `CreateOperation.pre_create` / `UpdateOperation.pre_update`:
`model_dump(exclude_none=True)` — the payload with `None`-valued fields
stripped. -/
def model_dump_exclude_none (p : List (String × Val)) : List (String × Val) :=
  p.filter (fun kv => kv.2 != Val.none)

/-- `CreateOperation.create`: validation, then the `None`-stripping
pre-hook, then the insert. Returns the model's table after the insert and
the persisted instance. -/
def createOp (model : ModelMeta) (store : Store) (data : List (String × Val)) :
    Except String (Db × Rec) :=
  match create_validation model store data with
  | Except.error e => Except.error e
  | Except.ok _ => Except.ok (ormCreate (tableOf store model.table) (model_dump_exclude_none data))

/-- `GenericBusinessLogic.create_validation`: overridden to a no-op. -/
def gbl_create_validation (_model : ModelMeta) (_store : Store) (_data : List (String × Val)) :
    Except String Unit :=
  Except.ok ()

/-- `GenericBusinessLogic.update_validation`: overridden to a no-op. -/
def gbl_update_validation (_model : ModelMeta) (_store : Store) (_pk : Val)
    (_data : List (String × Val)) : Except String Unit :=
  Except.ok ()

/-- `GenericBusinessLogic`'s create pipeline: the overridden no-op
validation, then the `None`-stripping pre-hook, then the insert. -/
def gblCreate (model : ModelMeta) (store : Store) (data : List (String × Val)) :
    Except String (Db × Rec) :=
  match gbl_create_validation model store data with
  | Except.error e => Except.error e
  | Except.ok _ => Except.ok (ormCreate (tableOf store model.table) (model_dump_exclude_none data))

/-- `setattr(instance, k, v)` on an attribute map. -/
def setAttr (r : Rec) (k : String) (v : Val) : Rec :=
  if r.any (fun kv => kv.1 == k) then
    r.map (fun kv => if kv.1 == k then (k, v) else kv)
  else r ++ [(k, v)]

/-- The `setattr` loop of `UpdateOperation._update`. -/
def applyUpdates (r : Rec) (updates : List (String × Val)) : Rec :=
  updates.foldl (fun acc kv => setAttr acc kv.1 kv.2) r

/-- `BaseORM.save`: merge the instance back into its table by primary key
and commit. -/
def ormSave (db : Db) (inst : Rec) : Db :=
  db.map (fun r => if getAttr r "id" == getAttr inst "id" then inst else r)

/-- `UpdateOperation._update`: loads by pk — with no absence check, so a
missing pk raises when the `setattr` loop dereferences `None` — mutates
the instance and saves it. -/
def opUpdateCore (_model : ModelMeta) (db : Db) (pk : Val) (data : List (String × Val)) :
    Except String (Db × Rec) :=
  match ormGet db pk with
  | Option.none => Except.error "AttributeError: NoneType object has no attribute"
  | some inst =>
    let inst2 := applyUpdates inst data
    Except.ok (ormSave db inst2, inst2)

/-- `GenericBusinessLogic`'s update pipeline: the overridden no-op
validation, the `None`-stripping pre-hook, then load-mutate-persist. -/
def gblUpdate (model : ModelMeta) (store : Store) (pk : Val) (data : List (String × Val)) :
    Except String (Db × Rec) :=
  match gbl_update_validation model store pk data with
  | Except.error e => Except.error e
  | Except.ok _ => opUpdateCore model (tableOf store model.table) pk (model_dump_exclude_none data)

/-- `DeleteOperation._delete`: an unresolved pk returns `False` before any
repository call; a resolved instance is handed to `repo.delete` — passed
positionally, i.e. as the `pk` argument — and `True` is returned. -/
def opDeleteCore (db : Db) (pk : Val) : Except String (Db × Bool) :=
  match ormGet db pk with
  | Option.none => Except.ok (db, false)
  | some inst =>
    match ormDelete db (some (PkArg.inst inst)) Option.none with
    | Except.error e => Except.error e
    | Except.ok (db2, _) => Except.ok (db2, true)

/-- The `{"deleted": flag}` response shape of `DeleteOperation.delete`. -/
structure DeleteResult where
  deleted : Bool
deriving DecidableEq, Repr

/-- `DeleteOperation.delete`: the no-op validation and pre/post hooks
around `_delete`, returning the deleted flag. -/
def deleteOp (db : Db) (pk : Val) : Except String (DeleteResult × Db) :=
  match opDeleteCore db pk with
  | Except.error e => Except.error e
  | Except.ok (db2, flag) => Except.ok (⟨flag⟩, db2)

/-- `dict.__setitem__`: replace the value of an existing key or append a
new binding. -/
def dictSet (d : List (String × Val)) (k : String) (v : Val) : List (String × Val) :=
  if d.any (fun kv => kv.1 == k) then
    d.map (fun kv => if kv.1 == k then (k, v) else kv)
  else d ++ [(k, v)]

/-- `FilterOperation.filter_validation`: raises `ValueError` at the first
filter key that is not an attribute of the model. -/
def filter_validation (model : ModelMeta) (filters : List (String × Val)) : Except String Unit :=
  match filters.find? (fun kv => !(model.attrs.contains kv.1)) with
  | some kv => Except.error ("Invalid filter field: " ++ kv.1)
  | Option.none => Except.ok ()

/-- The filter map after the tombstone injection at the top of
`FilterOperation.filter`: when the model has a `deleted_at` attribute the
entry `deleted_at = None` is set on the caller's filters. -/
def filtersWithTombstone (model : ModelMeta) (filters : List (String × Val)) :
    List (String × Val) :=
  if model.attrs.contains "deleted_at" then dictSet filters "deleted_at" Val.none else filters

/-- `FilterOperation.filter`: injects the tombstone condition when the
model has a `deleted_at` attribute, then validates every filter key
(fail-fast) before the scan runs. -/
def filterOp (model : ModelMeta) (db : Db) (filters : List (String × Val))
    (offset limit : Nat) (order_by : Option String) : Except String Db :=
  match filter_validation model (filtersWithTombstone model filters) with
  | Except.error e => Except.error e
  | Except.ok _ =>
    Except.ok (ormFilter model db offset limit order_by (filtersWithTombstone model filters))

/-- `ListOperation._list`: a paginated, ordered scan through
`repo.filter`, always passing `deleted_at=None` (dropped by the lenient
filter when the model has no such column). -/
def listOp (model : ModelMeta) (db : Db) (offset limit : Nat) (order_by : Option String) : Db :=
  ormFilter model db offset limit order_by [("deleted_at", Val.none)]

/-! ## Middlewares (`core/middlewares.py`) -/

/-- The rate-limiter configuration read from the environment. -/
structure Settings where
  WINDOW_SECONDS : Nat
  MAX_REQUESTS : Nat
deriving DecidableEq, Repr

/-- The process-wide `RATE_LIMIT_STORAGE` mapping. -/
abbrev RLStorage := List (String × List Nat)

/-- `RATE_LIMIT_STORAGE.get(key, [])`. -/
def rlGet (storage : RLStorage) (k : String) : List Nat :=
  ((storage.find? (fun kv => kv.1 == k)).map Prod.snd).getD []

/-- `RATE_LIMIT_STORAGE[key] = timestamps`. -/
def rlSet (storage : RLStorage) (k : String) (ts : List Nat) : RLStorage :=
  if storage.any (fun kv => kv.1 == k) then
    storage.map (fun kv => if kv.1 == k then (k, ts) else kv)
  else storage ++ [(k, ts)]

/-- An inbound HTTP request as the middlewares see it: the optional
`x-api-key` header, the caller network address, the path and the method. -/
structure Request where
  apiKey : Option String
  clientHost : String
  path : String
  method : String
deriving DecidableEq, Repr

/-- The rate-limiter identity: the `x-api-key` header, falling back to the
caller address. -/
def rlIdentity (r : Request) : String := r.apiKey.getD r.clientHost

/-- `rate_limit_dependency`: purge timestamps outside the window, raise
429 when the remaining count reaches the ceiling, otherwise append the
current timestamp. -/
def rate_limit_dependency (st : Settings) (storage : RLStorage) (identity : String) (now : Nat) :
    Except String RLStorage :=
  let timestamps := (rlGet storage identity).filter (fun t => now - t < st.WINDOW_SECONDS)
  if st.MAX_REQUESTS ≤ timestamps.length then
    Except.error "Too Many Requests"
  else
    Except.ok (rlSet storage identity (timestamps ++ [now]))

/-- A produced HTTP response, reduced to its status code. -/
structure Response where
  status_code : Nat
deriving DecidableEq, Repr

/-- Outcome of the rate-limiter middleware layer: the response it passes
up, whether the wrapped handler ran, and the limiter storage afterwards. -/
structure RLOutcome where
  response : Response
  handlerRan : Bool
  storage : RLStorage
deriving DecidableEq, Repr

/-- `add_rate_limiter`: a rejected admission check is turned into an
immediate 429 `JSONResponse` without calling `call_next`; an admitted
request runs the wrapped handler. -/
def add_rate_limiter (st : Settings) (req : Request) (now : Nat) (storage : RLStorage)
    (handler : Request → Response) : RLOutcome :=
  match rate_limit_dependency st storage (rlIdentity req) now with
  | Except.error _ => ⟨⟨429⟩, false, storage⟩
  | Except.ok storage2 => ⟨handler req, true, storage2⟩

/-- One persisted `ApiUsage` row as the tracking middleware writes it. -/
structure UsageEntry where
  client_id : Val
  path : String
  method : String
  status_code : Nat
  duration : Nat
deriving DecidableEq, Repr

/-- `repo.first(api_key=...)` over the clients table. -/
def firstByApiKey (clients : Db) (key : String) : Option Rec :=
  clients.find? (fun r => getAttr r "api_key" == Val.str key)

/-- The usage row built in `APICallTrackingMiddleware.dispatch`. -/
def mkUsage (client : Option Rec) (req : Request) (status duration : Nat) : UsageEntry :=
  { client_id := match client with | some c => getAttr c "id" | Option.none => Val.none
    path := req.path
    method := req.method
    status_code := status
    duration := duration }

/-- The client-identity resolution at the top of
`APICallTrackingMiddleware.dispatch`: a presented API key is looked up
with `repo.first`, an absent key yields an anonymous (null) client. -/
def dispatchClient (clients : Db) (req : Request) : Option Rec :=
  match req.apiKey with
  | some k => firstByApiKey clients k
  | Option.none => Option.none

/-- `APICallTrackingMiddleware.dispatch`: resolves the client by API key,
invokes `call_next`, then — only if `call_next` returned a response —
persists exactly one usage row and returns the response. An exception
escaping `call_next` propagates with no usage row written; the
`repo.create` call itself is not guarded, so its failure (modelled by
`writeOk = false`) also propagates, after the response was produced. -/
def trackingDispatch (clients : Db) (usageDb : List UsageEntry) (req : Request) (t0 t1 : Nat)
    (inner : Except String Response) (writeOk : Bool) :
    Except String (Response × List UsageEntry) :=
  let client := dispatchClient clients req
  match inner with
  | Except.error e => Except.error e
  | Except.ok response =>
    if writeOk then
      Except.ok (response, usageDb ++ [mkUsage client req response.status_code (t1 - t0)])
    else
      Except.error "SQLAlchemyError: usage insert failed"

/-- The middleware stack as built at import time: `add_rate_limiter` is
registered first and `APICallTrackingMiddleware` afterwards, so the
tracking middleware is outermost and wraps the rate limiter (Starlette
prepends each added middleware). Returns the response, the limiter
storage, whether the route handler ran, and the usage table. -/
def appStack (st : Settings) (clients : Db) (storage : RLStorage) (usageDb : List UsageEntry)
    (req : Request) (now t0 t1 : Nat) (handler : Request → Response) (writeOk : Bool) :
    Except String (Response × RLStorage × Bool × List UsageEntry) :=
  let inner := add_rate_limiter st req now storage handler
  match trackingDispatch clients usageDb req t0 t1 (Except.ok inner.response) writeOk with
  | Except.error e => Except.error e
  | Except.ok (resp, usage2) => Except.ok (resp, inner.storage, inner.handlerRan, usage2)

/-! ## Claim theorems -/

/-- C1 (code bug): `validate_unique_fields` is required to fail on any
payload that sets the primary key, but the code tests membership of the
Column object itself among the string keys of the dumped payload, so the
primary-key rejection can never fire: a payload setting `id` on an empty
table passes validation. The unique-column half of the routine does work:
a duplicated unique `name` is rejected. -/
theorem c1_validate_unique_fields_pk_not_rejected :
    validate_unique_fields ClientMeta [] [("id", Val.int 1), ("name", Val.str "svc-a")] =
      Except.ok () ∧
    dictHasKey (model_dump [("id", Val.int 1), ("name", Val.str "svc-a")])
      (PyKey.column ⟨"id", false, true⟩) = false ∧
    validate_unique_fields ClientMeta [[("id", Val.int 1), ("name", Val.str "svc-a")]]
      [("name", Val.str "svc-a"), ("description", Val.none)] =
      Except.error "Unique constraint violation: name already exists." := by
  refine ⟨by decide, by decide, by decide⟩

/-- C3 (amended): for every request whose wrapped call produced a response,
the tracking middleware appends exactly one usage row carrying the request
path, the method, the resulting status code and the elapsed duration, and
returns the handler's response unchanged — provided the usage write
itself succeeds. -/
theorem c3_usage_recorded_once_per_request :
    ∀ (clients : Db) (usageDb : List UsageEntry) (req : Request) (t0 t1 : Nat) (resp : Response),
      trackingDispatch clients usageDb req t0 t1 (Except.ok resp) true =
        Except.ok (resp,
          usageDb ++ [mkUsage (dispatchClient clients req) req resp.status_code (t1 - t0)]) := by
  intro clients usageDb req t0 t1 resp
  rfl

/-- C3 counterexample: when the usage-recording write itself fails, the
error propagates out of `dispatch` — there is no guard around
`repo.create` — so the handler's already-produced 201 response is
suppressed, contradicting the claim that a failure of the write never
overwrites or suppresses the response. -/
theorem c3_write_failure_suppresses_response :
    trackingDispatch [] [] ⟨Option.none, "10.0.0.9", "/clients/", "POST"⟩ 0 1
      (Except.ok ⟨201⟩) false = Except.error "SQLAlchemyError: usage insert failed" := by
  decide

/-- C4 (code bug): `BaseORM.delete` is documented to return `False` when
the primary key does not resolve, but the code passes the unresolved
`None` straight to `session.delete`, which raises; and no path of the
method ever returns `False` — every successful return yields `True`. -/
theorem c4_delete_unresolved_pk_raises :
    ormDelete [] (some (PkArg.val (Val.int 5))) Option.none =
      Except.error "UnmappedInstanceError: None is not mapped" ∧
    ormDelete [[("id", Val.int 1)]] Option.none (some [("id", Val.int 1)]) =
      Except.ok ([], true) ∧
    (∀ (db : Db) (pk : Option PkArg) (m : Option Rec) (res : Db × Bool),
      ormDelete db pk m = Except.ok res → res.2 = true) := by
  refine ⟨by decide, by decide, ?_⟩
  intro db pk m res h
  unfold ormDelete at h
  repeat' split at h
  all_goals first
    | (cases h; rfl)
    | simp_all

/-- C4 witness: the universally quantified part of
`c4_delete_unresolved_pk_raises` applied at a concrete resolved delete. -/
theorem c4_delete_unresolved_pk_raises_witness :
    (([], true) : Db × Bool).2 = true :=
  c4_delete_unresolved_pk_raises.2.2 [[("id", Val.int 2)]] Option.none
    (some [("id", Val.int 2)]) ([], true) (by decide)

/-- C9: the Delete lifecycle operation is idempotent on absent keys — a
primary key that does not resolve yields `deleted = false` with the table
untouched (so every repeated call returns the same), and no error is
raised. -/
theorem c9_delete_absent_pk_idempotent :
    ∀ (db : Db) (pk : Val), ormGet db pk = Option.none →
      deleteOp db pk = Except.ok (⟨false⟩, db) := by
  intro db pk h
  unfold deleteOp opDeleteCore
  rw [h]

/-- C9 witness: `c9_delete_absent_pk_idempotent` at an empty table. -/
theorem c9_delete_absent_pk_idempotent_witness :
    deleteOp [] (Val.int 7) = Except.ok (⟨false⟩, []) :=
  c9_delete_absent_pk_idempotent [] (Val.int 7) (by decide)

/-- C10: `GenericBusinessLogic` overrides `create_validation` and
`update_validation` to no-ops, so its Create pipeline inserts every
payload unconditionally and its Update pipeline goes straight to the
load-mutate-persist step; at a payload duplicating the unique `name`
(which the default `create_validation` rejects) the generic pipeline
still inserts, leaving only the store's own constraints to object. -/
theorem c10_generic_logic_skips_validation :
    (∀ (model : ModelMeta) (store : Store) (data : List (String × Val)),
      gbl_create_validation model store data = Except.ok () ∧
      gblCreate model store data =
        Except.ok (ormCreate (tableOf store model.table) (model_dump_exclude_none data))) ∧
    (∀ (model : ModelMeta) (store : Store) (pk : Val) (data : List (String × Val)),
      gbl_update_validation model store pk data = Except.ok () ∧
      gblUpdate model store pk data =
        opUpdateCore model (tableOf store model.table) pk (model_dump_exclude_none data)) ∧
    create_validation ClientMeta [("clients", [[("id", Val.int 1), ("name", Val.str "svc-a")]])]
      [("name", Val.str "svc-a"), ("description", Val.none)] =
      Except.error "Unique constraint violation: name already exists." ∧
    gblCreate ClientMeta [("clients", [[("id", Val.int 1), ("name", Val.str "svc-a")]])]
      [("name", Val.str "svc-a"), ("description", Val.none)] =
      Except.ok ([[("id", Val.int 1), ("name", Val.str "svc-a")],
                  [("id", Val.int 2), ("name", Val.str "svc-a")]],
                 [("id", Val.int 2), ("name", Val.str "svc-a")]) := by
  refine ⟨fun model store data => ⟨rfl, rfl⟩, fun model store pk data => ⟨rfl, rfl⟩,
    by decide, by decide⟩

/-- C2 counterexample: with a one-request ceiling already reached, the
admission check rejects the request — the handler does not run and a 429
is returned — yet the tracking middleware, which wraps the rate limiter,
still persists a Usage row for the rejected request, contradicting the
claim that no side effect is recorded. -/
theorem c2_rate_limited_request_still_tracked :
    appStack ⟨60, 1⟩ [] [("k", [100])] [] ⟨some "k", "10.0.0.1", "/nid-egypt/", "POST"⟩
      100 100 101 (fun _ => ⟨200⟩) true =
      Except.ok (⟨429⟩, [("k", [100])], false,
        [⟨Val.none, "/nid-egypt/", "POST", 429, 1⟩]) := by
  decide

/-- C2 (amended): a request rejected by the rate limiter is surfaced
immediately as a 429 without running the wrapped handler, and the
limiter's own storage is left unchanged (no timestamp recorded); but the
request-tracking middleware — registered after and therefore outside the
rate limiter — still records exactly one Usage row, carrying the 429
status. -/
theorem c2_admission_failure_recorded_anyway :
    ∀ (st : Settings) (clients : Db) (storage : RLStorage) (usageDb : List UsageEntry)
      (req : Request) (now t0 t1 : Nat) (handler : Request → Response),
      rate_limit_dependency st storage (rlIdentity req) now = Except.error "Too Many Requests" →
      appStack st clients storage usageDb req now t0 t1 handler true =
        Except.ok (⟨429⟩, storage, false,
          usageDb ++ [mkUsage (dispatchClient clients req) req 429 (t1 - t0)]) := by
  intro st clients storage usageDb req now t0 t1 handler h
  unfold appStack add_rate_limiter trackingDispatch
  rw [h]
  rfl

/-- C2 witness: `c2_admission_failure_recorded_anyway` at a concrete
saturated window. -/
theorem c2_admission_failure_recorded_anyway_witness :
    appStack ⟨60, 1⟩ [] [("k", [100])] [] ⟨some "k", "10.0.0.2", "/clients/", "GET"⟩
      100 100 103 (fun _ => ⟨200⟩) true =
      Except.ok (⟨429⟩, [("k", [100])], false,
        [] ++ [mkUsage (dispatchClient [] ⟨some "k", "10.0.0.2", "/clients/", "GET"⟩)
          ⟨some "k", "10.0.0.2", "/clients/", "GET"⟩ 429 (103 - 100)]) :=
  c2_admission_failure_recorded_anyway ⟨60, 1⟩ [] [("k", [100])] []
    ⟨some "k", "10.0.0.2", "/clients/", "GET"⟩ 100 100 103 (fun _ => ⟨200⟩) (by decide)

/-- Inserting into a sorted table grows its length by one. -/
theorem length_insertSortedBy (le : Rec → Rec → Bool) (x : Rec) (l : Db) :
    (insertSortedBy le x l).length = l.length + 1 := by
  induction l with
  | nil => rfl
  | cons y ys ih =>
    unfold insertSortedBy
    split
    · rfl
    · simp [List.length_cons, ih]

/-- Sorting a table preserves its length. -/
theorem length_sortRecsBy (le : Rec → Rec → Bool) (l : Db) :
    (sortRecsBy le l).length = l.length := by
  induction l with
  | nil => rfl
  | cons x xs ih =>
    unfold sortRecsBy
    rw [length_insertSortedBy, ih, List.length_cons]

/-- `_apply_ordering` only reorders: the length is preserved. -/
theorem length_applyOrdering (model : ModelMeta) (ob : Option String) (db : Db) :
    (applyOrdering model ob db).length = db.length := by
  unfold applyOrdering
  rcases ob with _ | s
  · rfl
  · dsimp only
    split
    · split
      · exact length_sortRecsBy ..
      · rfl
    · split
      · exact length_sortRecsBy ..
      · rfl

/-- A 101-row clients table. -/
def db101 : Db := (List.range 101).map (fun i => [("id", Val.int (Int.ofNat i))])

/-- C5 counterexample: nothing clamps `limit` — a direct scan of a 101-row
table with `limit = 101` returns all 101 records, more than the claimed
ceiling of 100; the `Query(le=100)` annotation rejects (rather than
clamps) an over-limit value where request validation applies. -/
theorem c5_limit_above_100_not_clamped :
    (ormAll ClientMeta db101 0 101 Option.none).length = 101 ∧
    queryLeHundred 101 = false := by
  constructor
  · rfl
  · decide

/-- C5 (amended): the paginated scan returns exactly
`min limit (count - offset)` records — the limit is passed through to the
query unclamped (over-limit values are instead rejected by the `le=100`
request validation where it applies) — and an offset at or beyond the
record count yields the empty sequence rather than an error. -/
theorem c5_pagination_amended :
    ∀ (model : ModelMeta) (db : Db) (offset limit : Nat) (ob : Option String),
      (ormAll model db offset limit ob).length = min limit (db.length - offset) ∧
      (db.length ≤ offset → ormAll model db offset limit ob = []) := by
  intro model db offset limit ob
  constructor
  · unfold ormAll
    rw [List.length_take, List.length_drop, length_applyOrdering]
  · intro h
    have h2 : (applyOrdering model ob db).length ≤ offset := by
      rw [length_applyOrdering]
      exact h
    unfold ormAll
    rw [List.drop_eq_nil_of_le h2, List.take_nil]

/-- C5 witness: `c5_pagination_amended` at an offset beyond a one-row
table. -/
theorem c5_pagination_amended_witness :
    ormAll ClientMeta [[("id", Val.int 1)]] 5 100 Option.none = [] :=
  (c5_pagination_amended ClientMeta [[("id", Val.int 1)]] 5 100 Option.none).2 (by decide)

/-- A successful date-of-birth extraction implies a successful century
extraction. -/
theorem century_ok_of_dob_ok (today : PyDate) (id : NIDDigits) (dob : DateOfBirth)
    (h : extract_date_of_birth today id = Except.ok dob) :
    ∃ c, extract_century id = Except.ok c := by
  unfold extract_date_of_birth at h
  rcases hc : extract_century id with e | c
  · rw [hc] at h
    simp at h
  · exact ⟨c, rfl⟩

/-- The identifier 39901013400017: every sub-extraction succeeds (century
2000, year 2099, valid date, governorate 34 = North Sinai, odd sequence)
but the birth date lies in the future. -/
def futureId : NIDDigits := [3, 9, 9, 0, 1, 0, 1, 3, 4, 0, 0, 0, 1, 7]

/-- C6 counterexample: a 14-digit numeric identifier on which every
sub-extraction succeeds and the checksum placeholder passes, yet
`validate_and_extract` reports `is_valid = false`, because the additional
future-birth-date check appends an error. -/
theorem c6_valid_extractions_can_still_be_invalid :
    futureId.length = 14 ∧ futureId.all (fun d => decide (d < 10)) = true ∧
    (extract_date_of_birth ⟨2025, 1, 1⟩ futureId).toOption.isSome = true ∧
    (extract_governorate futureId).toOption.isSome = true ∧
    extract_century futureId = Except.ok 2000 ∧
    validate_checksum futureId = true ∧
    (validate_and_extract ⟨2025, 1, 1⟩ futureId).is_valid = false := by
  decide

/-- C6 (amended): `validate_and_extract` reports `is_valid = true` exactly
when the date-of-birth extraction succeeds with a birth date not in the
future and an age of at most 150, and the governorate extraction succeeds
(gender and sequence extraction are total on digit strings, a successful
date extraction entails a successful century extraction, and the checksum
placeholder always passes). -/
theorem c6_is_valid_characterization :
    ∀ (today : PyDate) (id : NIDDigits),
      (validate_and_extract today id).is_valid = true ↔
        ((∃ dob, extract_date_of_birth today id = Except.ok dob ∧
            pyDateLt today dob.full_date = false ∧ dob.age ≤ 150) ∧
          ∃ loc, extract_governorate id = Except.ok loc) := by
  intro today id
  rcases h1 : extract_date_of_birth today id with e1 | dob
  · rcases h3 : extract_century id with e3 | c <;>
      rcases h2 : extract_governorate id with e2 | loc <;>
      simp [validate_and_extract, h1, h2, h3]
  · obtain ⟨c, h3⟩ := century_ok_of_dob_ok today id dob h1
    rcases h2 : extract_governorate id with e2 | loc
    · simp [validate_and_extract, h1, h2, h3]
    · by_cases ha : dob.age > 150 <;> cases hf : pyDateLt today dob.full_date <;>
        (simp [validate_and_extract, validate_checksum, h1, h2, h3, hf, ha, not_lt];
          try omega)

/-- C8: for every identifier, a leading digit 2 resolves the century to
1900 and a leading 3 to 2000; any other leading digit makes the century
extraction fail, and `validate_and_extract` folds that failure into the
error list — `is_valid` is false, the error list is non-empty, the century
field stays unset — rather than letting the exception escape. -/
theorem c8_century_resolution :
    ∀ (today : PyDate) (id : NIDDigits),
      (dig id 0 = 2 → extract_century id = Except.ok 1900) ∧
      (dig id 0 = 3 → extract_century id = Except.ok 2000) ∧
      (dig id 0 ≠ 2 → dig id 0 ≠ 3 →
        (validate_and_extract today id).is_valid = false ∧
        (validate_and_extract today id).errors ≠ [] ∧
        (validate_and_extract today id).century = Option.none) := by
  intro today id
  refine ⟨?_, ?_, ?_⟩
  · intro h
    simp [extract_century, h]
  · intro h
    simp [extract_century, h]
  · intro h2 h3
    have hc : extract_century id =
        Except.error ("Invalid century indicator: " ++ toString (dig id 0)) := by
      simp [extract_century, h2, h3]
    have hd : extract_date_of_birth today id =
        Except.error ("Invalid date of birth: " ++
          ("Invalid century indicator: " ++ toString (dig id 0))) := by
      unfold extract_date_of_birth
      rw [hc]
    refine ⟨?_, ?_, ?_⟩ <;> simp [validate_and_extract, hc, hd]

/-- C8 witness: `c8_century_resolution` at identifiers with leading digits
2 and 4. -/
theorem c8_century_resolution_witness :
    extract_century [2, 9, 5, 0, 1, 0, 1, 0, 1, 1, 2, 3, 4, 7] = Except.ok 1900 ∧
    ((validate_and_extract ⟨2025, 1, 1⟩ [4, 9, 5, 0, 1, 0, 1, 0, 1, 1, 2, 3, 4, 7]).is_valid
        = false ∧
      (validate_and_extract ⟨2025, 1, 1⟩ [4, 9, 5, 0, 1, 0, 1, 0, 1, 1, 2, 3, 4, 7]).errors
        ≠ [] ∧
      (validate_and_extract ⟨2025, 1, 1⟩ [4, 9, 5, 0, 1, 0, 1, 0, 1, 1, 2, 3, 4, 7]).century
        = Option.none) :=
  ⟨(c8_century_resolution ⟨2025, 1, 1⟩ [2, 9, 5, 0, 1, 0, 1, 0, 1, 1, 2, 3, 4, 7]).1 (by decide),
   (c8_century_resolution ⟨2025, 1, 1⟩ [4, 9, 5, 0, 1, 0, 1, 0, 1, 1, 2, 3, 4, 7]).2.2
     (by decide) (by decide)⟩

/-- Sorted insertion adds no new elements. -/
theorem mem_insertSortedBy (le : Rec → Rec → Bool) (y : Rec) (l : Db) (x : Rec)
    (h : x ∈ insertSortedBy le y l) : x ∈ y :: l := by
  induction l with
  | nil =>
    unfold insertSortedBy at h
    exact h
  | cons z zs ih =>
    unfold insertSortedBy at h
    split at h
    · exact h
    · rcases List.mem_cons.mp h with h | h
      · subst h
        simp
      · rcases List.mem_cons.mp (ih h) with h2 | h2
        · simp [h2]
        · simp [h2]

/-- Sorting adds no new elements. -/
theorem mem_sortRecsBy (le : Rec → Rec → Bool) (l : Db) (x : Rec)
    (h : x ∈ sortRecsBy le l) : x ∈ l := by
  induction l with
  | nil =>
    unfold sortRecsBy at h
    exact h
  | cons z zs ih =>
    unfold sortRecsBy at h
    rcases List.mem_cons.mp (mem_insertSortedBy le z (sortRecsBy le zs) x h) with h2 | h2
    · simp [h2]
    · simp [ih h2]

/-- `_apply_ordering` adds no new elements. -/
theorem mem_applyOrdering (model : ModelMeta) (ob : Option String) (db : Db) (x : Rec)
    (h : x ∈ applyOrdering model ob db) : x ∈ db := by
  unfold applyOrdering at h
  rcases ob with _ | s
  · exact h
  · dsimp only at h
    split at h
    · split at h
      · exact mem_sortRecsBy _ _ _ h
      · exact h
    · split at h
      · exact mem_sortRecsBy _ _ _ h
      · exact h

/-- A `dict.__setitem__` entry keeps its key. -/
theorem fst_dictSet_entry (k : String) (v : Val) (kv : String × Val) :
    ((if kv.1 == k then (k, v) else kv) : String × Val).1 = kv.1 := by
  by_cases h : kv.1 == k
  · simp only [h, if_true]
    exact (beq_iff_eq.mp h).symm
  · simp [h]

/-- Setting a key that the attribute set contains neither adds nor removes
unknown-key witnesses. -/
theorem exists_bad_key_dictSet (attrs : List String) (d : List (String × Val)) (k : String)
    (v : Val) (hk : attrs.contains k = true) :
    ((∃ kv ∈ dictSet d k v, attrs.contains kv.1 = false) ↔
      ∃ kv ∈ d, attrs.contains kv.1 = false) := by
  unfold dictSet
  split
  · constructor
    · rintro ⟨kv, hmem, hbad⟩
      rcases List.mem_map.mp hmem with ⟨kv0, hkv0, rfl⟩
      exact ⟨kv0, hkv0, by rwa [fst_dictSet_entry] at hbad⟩
    · rintro ⟨kv0, hkv0, hbad⟩
      refine ⟨if kv0.1 == k then (k, v) else kv0, List.mem_map_of_mem _ hkv0, ?_⟩
      rwa [fst_dictSet_entry]
  · constructor
    · rintro ⟨kv, hmem, hbad⟩
      rcases List.mem_append.mp hmem with h | h
      · exact ⟨kv, h, hbad⟩
      · have h2 : kv = (k, v) := by simpa using h
        subst h2
        simp at hk hbad
        exact absurd hk hbad
    · rintro ⟨kv0, hkv0, hbad⟩
      exact ⟨kv0, List.mem_append_left _ hkv0, hbad⟩

/-- The tombstone injection neither adds nor removes unknown-key
witnesses: the injected key, when injected, is a model attribute. -/
theorem bad_key_withTombstone (model : ModelMeta) (filters : List (String × Val)) :
    ((∃ kv ∈ filtersWithTombstone model filters, model.attrs.contains kv.1 = false) ↔
      ∃ kv ∈ filters, model.attrs.contains kv.1 = false) := by
  unfold filtersWithTombstone
  cases hda : model.attrs.contains "deleted_at"
  · simp
  · simp only [if_pos]
    exact exists_bad_key_dictSet model.attrs filters "deleted_at" Val.none hda

/-- `filter_validation` fails exactly when some filter key is not an
attribute of the model. -/
theorem filter_validation_error_iff (model : ModelMeta) (filters : List (String × Val)) :
    (∃ e, filter_validation model filters = Except.error e) ↔
      ∃ kv ∈ filters, model.attrs.contains kv.1 = false := by
  unfold filter_validation
  cases hf : filters.find? (fun kv => !(model.attrs.contains kv.1)) with
  | none =>
    constructor
    · rintro ⟨e, he⟩
      cases he
    · rintro ⟨kv, hmem, hbad⟩
      have h2 := List.find?_eq_none.mp hf kv hmem
      simp at h2
      exact absurd h2 (by simpa using hbad)
  | some kv =>
    constructor
    · rintro ⟨e, he⟩
      refine ⟨kv, List.mem_of_find?_eq_some hf, ?_⟩
      have h2 := List.find?_some hf
      simpa using h2
    · intro h
      exact ⟨_, rfl⟩

/-- The strict filter pipeline fails exactly when the key validation over
the tombstone-injected filter map fails. -/
theorem filterOp_error_iff (model : ModelMeta) (db : Db) (filters : List (String × Val))
    (offset limit : Nat) (ob : Option String) :
    (∃ e, filterOp model db filters offset limit ob = Except.error e) ↔
      ∃ e, filter_validation model (filtersWithTombstone model filters) = Except.error e := by
  unfold filterOp
  cases hv : filter_validation model (filtersWithTombstone model filters) with
  | error e => simp
  | ok u => simp

/-- The lenient filter keeps only conditions over known attributes, so
re-filtering the conditions changes nothing. -/
theorem filter_conditions_idem (model : ModelMeta) (filters : List (String × Val)) :
    filter_conditions model (filter_conditions model filters) =
      filter_conditions model filters := by
  unfold filter_conditions
  rw [List.filter_filter]
  apply List.filter_congr
  intro kv _
  exact Bool.and_self _

/-- C7: the two-tier strictness of filtering. The strict
`FilterOperation` pipeline fails — before any scan, since the validation
short-circuits the pipeline — exactly when some caller-supplied filter
key is not an attribute of the target model; the lenient data-access
filter is total (it never raises), ignores unknown keys entirely, and
every record it returns satisfies exact equality on all known keys. -/
theorem c7_filter_two_tier_strictness :
    ∀ (model : ModelMeta) (db : Db) (filters : List (String × Val))
      (offset limit : Nat) (ob : Option String),
      ((∃ e, filterOp model db filters offset limit ob = Except.error e) ↔
        ∃ kv ∈ filters, model.attrs.contains kv.1 = false) ∧
      (ormFilter model db offset limit ob filters =
        ormFilter model db offset limit ob (filter_conditions model filters)) ∧
      ((ormFilter model db offset limit ob filters).all
        (matchesConds (filter_conditions model filters)) = true) := by
  intro model db filters offset limit ob
  refine ⟨?_, ?_, ?_⟩
  · rw [filterOp_error_iff, filter_validation_error_iff]
    exact bad_key_withTombstone model filters
  · unfold ormFilter
    rw [filter_conditions_idem]
  · rw [List.all_eq_true]
    intro x hx
    have hx2 := List.mem_of_mem_drop (List.mem_of_mem_take hx)
    have hx3 := mem_applyOrdering model ob _ x hx2
    exact List.of_mem_filter hx3
